import Mathlib

/-!
Shallow embedding of `mountmon.py`, a daemon that monitors a set of
mountpoints.  The per-mountpoint health check `mountmon.MountMon` is embedded
as a pure function over an oracle environment (`Env`) that answers each
effectful query (mount-state probe, directory listings, external command
results, the clock) at the point the source would perform it.  Side effects
are recorded in an explicit trace of `Event`s, and the filesystem contents
touched by the write-liveness check are threaded as a map from paths to file
contents.  The scheduler's cadence arithmetic and the startup/config-load
path are embedded separately.
-/

namespace Mountmon

/-- Outcome of attempting to run one external command: either the process
could not be spawned at all, or it exited with the given status code. -/
inductive CmdResult where
  | spawnFail : CmdResult
  | exited : Int → CmdResult
deriving Repr, DecidableEq

/-- Embedding of `RunCommand` (mountmon.py lines 31–37): `subprocess.Popen`
followed by `wait`; returns `true` iff the process exited with status 0, and
any execution error (including spawn failure) yields `false` via the bare
`except` clause. -/
def RunCommand (r : CmdResult) : Bool :=
  match r with
  | .spawnFail => false
  | .exited code => code == 0

/-- Observable side effects of one `MountMon` invocation: external command
invocations, `time.sleep` calls, Zabbix alert sends (from `Error`), log
lines, and filesystem mutations (`os.mkdir`, writing the checkfile). -/
inductive Event where
  | runCmd : List String → Event
  | sleep : Nat → Event
  | alert : Nat → Event
  | logError : String → Event
  | logWarn : String → Event
  | mkdir : String → Nat → Event
  | writeFile : String → String → Event
deriving Repr, DecidableEq

/-- True for external process invocations. -/
def Event.isCmd : Event → Bool
  | .runCmd _ => true
  | _ => false

/-- True for filesystem mutations (directory creation or file write). -/
def Event.isFsWrite : Event → Bool
  | .mkdir _ _ => true
  | .writeFile _ _ => true
  | _ => false

/-- The values sent to the alert sink, in order, during a trace. -/
def alertValues (t : List Event) : List Nat :=
  t.filterMap fun e =>
    match e with
    | .alert v => some v
    | _ => none

/-- Per-mountpoint options, the `{checkdir, checkfile, write_check}` mapping
stored under `cfg['mountpoints'][mp]` (lines 55–61). -/
structure MountSpec where
  checkdir : String
  checkfile : String
  write_check : Bool
deriving Repr, DecidableEq

/-- The configuration fields the checker consults: `cfg['remount']` and
`cfg['zabbix']`. -/
structure Cfg where
  remount : Bool
  zabbix : Bool
deriving Repr, DecidableEq

/-- Defaults set in `mountmon.__init__` (lines 44–62): `zabbix` and
`remount` both start out `False`. -/
def defaultCfg : Cfg := { remount := false, zabbix := false }

/-- The default mountpoint entry from `__init__` (lines 55–61). -/
def defaultSpec : MountSpec :=
  { checkdir := "check", checkfile := "foo", write_check := true }

/-- Oracle answers for the effectful queries one `MountMon` call can make,
in source order: `os.path.ismount(mp)`, the mount command of the unmounted
branch, `os.listdir(mp)`, the two unmount attempts and the remount of the
stale branch, `os.listdir(checkdir)`, `os.mkdir(checkdir, 0700)`, the
checkfile write, and `time.ctime()` at the moment of the write. -/
structure Env where
  ismount : Bool
  mountCmd : CmdResult
  listMp : Bool
  umountCmd : CmdResult
  umountLazyCmd : CmdResult
  remountCmd : CmdResult
  listCheckDir : Bool
  mkdirOk : Bool
  writeOk : Bool
  ctime : String
deriving Repr, DecidableEq

/-- Filesystem contents, as a map from path to file content. -/
abbrev FSMap := String → Option String

/-- Embedding of `mountmon.Error` (lines 99–102) as run from the checker,
after `SetLogging` has set the logger: sends `to_zabbix` to Zabbix iff
`cfg['zabbix']`, then logs the message at error level. -/
def Error (cfg : Cfg) (output : String) (toZabbix : Nat) : List Event :=
  (if cfg.zabbix then [Event.alert toZabbix] else []) ++ [Event.logError output]

/-- Embedding of `mountmon.Mount` (lines 104–105): runs
`/usr/bin/mount mp` and reports whether it exited 0. -/
def Mount (mp : String) (r : CmdResult) : Bool × List Event :=
  (RunCommand r, [Event.runCmd ["/usr/bin/mount", mp]])

/-- Embedding of `mountmon.Umount` (lines 107–112): runs
`/usr/bin/umount mp`, and if that fails retries with the lazy flag
`/usr/bin/umount -l mp`; succeeds if either attempt does. -/
def Umount (mp : String) (r1 rl : CmdResult) : Bool × List Event :=
  if RunCommand r1 then
    (true, [Event.runCmd ["/usr/bin/umount", mp]])
  else
    (RunCommand rl,
      [Event.runCmd ["/usr/bin/umount", mp],
       Event.runCmd ["/usr/bin/umount", "-l", mp]])

/-- Path `checkdir = "{}/{}".format(mp, cfg['mountpoints'][mp]['checkdir'])`
(line 115). -/
def checkdirOf (mp : String) (spec : MountSpec) : String :=
  mp ++ "/" ++ spec.checkdir

/-- Path `checkfile = "{}/{}".format(checkdir, cfg['mountpoints'][mp]['checkfile'])`
(line 116). -/
def checkfileOf (mp : String) (spec : MountSpec) : String :=
  checkdirOf mp spec ++ "/" ++ spec.checkfile

/-- Step 1 of `MountMon`, the mountpoint check (lines 118–130).  Returns
`(some code, trace)` when the source returns `code` here, and
`(none, trace)` when control falls through to the staleness check. -/
def mountCheck (cfg : Cfg) (mp : String) (env : Env) : Option Nat × List Event :=
  if env.ismount then
    (none, [])
  else if cfg.remount then
    let e1 := Error cfg (mp ++ " found unmounted, attempting to mount") 1
    let m := Mount mp env.mountCmd
    if m.1 then
      (none, e1 ++ m.2 ++ [Event.sleep 2])
    else
      (some 1, e1 ++ m.2 ++ Error cfg (mp ++ " could not be mounted") 1)
  else
    (some 1, Error cfg (mp ++ " is not mounted") 1)

/-- Step 2 of `MountMon`, the staleness check (lines 132–151): list the
mountpoint; on `OSError`, either report stale or (with remount enabled)
unmount, wait, remount, wait.  The misspelling "attmepting" is the
source's. -/
def staleCheck (cfg : Cfg) (mp : String) (env : Env) : Option Nat × List Event :=
  if env.listMp then
    (none, [])
  else if cfg.remount then
    let e1 := Error cfg ("mountpoint " ++ mp ++ " appears stale, attmepting remount") 2
    let u := Umount mp env.umountCmd env.umountLazyCmd
    if u.1 then
      let m := Mount mp env.remountCmd
      if m.1 then
        (none, e1 ++ u.2 ++ [Event.sleep 2] ++ m.2 ++ [Event.sleep 2])
      else
        (some 2, e1 ++ u.2 ++ [Event.sleep 2] ++ m.2 ++
          Error cfg ("Unmounted stale mountpoint " ++ mp ++ ", but cannot remount") 2)
    else
      (some 2, e1 ++ u.2 ++ Error cfg (mp ++ " could not be unmounted for remount") 2)
  else
    (some 2, Error cfg (mp ++ " not readable, appears stale") 2)

/-- Step 3 of `MountMon`, the file creation/writing check (lines 153–176),
guarded by `write_check`: list `checkdir`, on `OSError` try
`os.mkdir(checkdir, 0700)` (0700 octal = 448); then write
`"{}\n".format(time.ctime())` to `checkfile`, overwriting it.  The error
message for code 3 interpolates `mp`, not `checkdir`, as in the source. -/
def writeCheck (cfg : Cfg) (mp : String) (spec : MountSpec) (env : Env)
    (fs : FSMap) : Option Nat × FSMap × List Event :=
  if spec.write_check then
    let checkdir := checkdirOf mp spec
    let checkfile := checkfileOf mp spec
    let dirStep : Option (List Event) :=
      if env.listCheckDir then some []
      else if env.mkdirOk then
        some [Event.mkdir checkdir 448,
              Event.logWarn ("Created monitor directory " ++ checkdir)]
      else none
    match dirStep with
    | none =>
        (some 3, fs,
          Error cfg ("Dir " ++ mp ++ " does not exist and could not create it.") 3)
    | some t1 =>
        if env.writeOk then
          (none,
           Function.update fs checkfile (some (env.ctime ++ "\n")),
           t1 ++ [Event.writeFile checkfile (env.ctime ++ "\n")])
        else
          (some 4, fs, t1 ++ Error cfg ("Could not write file: " ++ checkfile) 4)
  else
    (none, fs, [])

/-- Steps 2 and 3 in sequence, i.e. the remainder of `MountMon` once the
mountpoint check has fallen through. -/
def restCheck (cfg : Cfg) (mp : String) (spec : MountSpec) (env : Env)
    (fs : FSMap) : Nat × FSMap × List Event :=
  match staleCheck cfg mp env with
  | (some c, t2) => (c, fs, t2)
  | (none, t2) =>
      match writeCheck cfg mp spec env fs with
      | (some c, fs2, t3) => (c, fs2, t2 ++ t3)
      | (none, fs2, t3) => (0, fs2, t2 ++ t3)

/-- Embedding of `mountmon.MountMon` (lines 114–178): mountpoint check,
staleness check, write-liveness check in sequence, returning the exit code
together with the resulting filesystem contents and the event trace. -/
def MountMon (cfg : Cfg) (mp : String) (spec : MountSpec) (env : Env)
    (fs : FSMap) : Nat × FSMap × List Event :=
  match mountCheck cfg mp env with
  | (some c, t1) => (c, fs, t1)
  | (none, t1) =>
      let r := restCheck cfg mp spec env fs
      (r.1, r.2.1, t1 ++ r.2.2)

/-- The code returned by one `MountMon` call. -/
def checkCode (cfg : Cfg) (mp : String) (spec : MountSpec) (env : Env)
    (fs : FSMap) : Nat :=
  (MountMon cfg mp spec env fs).1

/-- The filesystem contents after one `MountMon` call. -/
def checkFS (cfg : Cfg) (mp : String) (spec : MountSpec) (env : Env)
    (fs : FSMap) : FSMap :=
  (MountMon cfg mp spec env fs).2.1

/-- The event trace of one `MountMon` call. -/
def checkTrace (cfg : Cfg) (mp : String) (spec : MountSpec) (env : Env)
    (fs : FSMap) : List Event :=
  (MountMon cfg mp spec env fs).2.2

/-- Python's `%` on floats for a positive divisor:
`x % y = x - y * floor(x / y)`, modelled over the rationals. -/
def fmod (x y : ℚ) : ℚ := x - y * ⌊x / y⌋

/-- The sleep duration computed in `MainLoop` (line 188):
`interval - ((time.time() - starttime) % interval)`, where `starttime` was
taken once before the loop (line 181). -/
def mainLoopSleep (interval starttime now : ℚ) : ℚ :=
  interval - fmod (now - starttime) interval

/-- How the process start can end: control reaches `MainLoop`, the process
exits with an explicit status, or an exception propagates uncaught to the
interpreter (which then terminates the process with a traceback). -/
inductive StartupOutcome where
  | mainLoopRuns : StartupOutcome
  | exitWithCode : Nat → StartupOutcome
  | uncaughtException : String → StartupOutcome
deriving Repr, DecidableEq

/-- Embedding of `mountmon.Error` (lines 99–102) as invoked during startup, before
`SetLogging` has run: the Zabbix branch fires iff `cfg['zabbix']`, and then
`self.logger.error(output)` raises `AttributeError`, because `__init__`
(lines 42–62) sets only `self.cfg` and no `logger` attribute exists yet. -/
def errorBeforeLogging (cfg : Cfg) (toZabbix : Nat) :
    List Event × Option String :=
  ((if cfg.zabbix then [Event.alert toZabbix] else []), some "AttributeError")

/-- The startup path of `__main__` (lines 193–223) without the `-z` flag and
without daemonizing: `GetConfig` (lines 64–70) runs before `SetLogging`.
When loading the config file fails, the `except` clause calls
`Error(..., 5)` with `cfg` still at its defaults; that call raises
`AttributeError` (no logger is set), which nothing catches, so the
interpreter terminates on an uncaught exception and `MainLoop` is never
reached.  When loading succeeds, control reaches `MainLoop`. -/
def startupOutcome (loadOk : Bool) : StartupOutcome :=
  if loadOk then
    .mainLoopRuns
  else
    match errorBeforeLogging defaultCfg 5 with
    | (_, some e) => .uncaughtException e
    | (_, none) => .mainLoopRuns

/-- Helper: on the fully healthy path (mounted, listable, write-check on,
checkdir listable, write succeeding) `MountMon` returns 0 and its only
side effect is overwriting the checkfile with the current timestamp. -/
theorem healthy_check (cfg : Cfg) (mp : String) (spec : MountSpec) (env : Env)
    (fs : FSMap) (hm : env.ismount = true) (hl : env.listMp = true)
    (hw : spec.write_check = true) (hd : env.listCheckDir = true)
    (hwr : env.writeOk = true) :
    MountMon cfg mp spec env fs =
      (0, Function.update fs (checkfileOf mp spec) (some (env.ctime ++ "\n")),
       [Event.writeFile (checkfileOf mp spec) (env.ctime ++ "\n")]) := by
  simp [MountMon, restCheck, mountCheck, staleCheck, writeCheck, hm, hl, hw, hd, hwr]

/-- C1: for a mounted, listable mountpoint with write-check enabled and an
existing, writable checkdir, `Check` returns OK (0), and after the call the
checkfile's content is exactly the timestamp taken at the time of the call as
a single newline-terminated line, whatever the file held before. -/
theorem check_ok_writes_timestamp (cfg : Cfg) (mp : String) (spec : MountSpec)
    (env : Env) (fs : FSMap) (hm : env.ismount = true) (hl : env.listMp = true)
    (hw : spec.write_check = true) (hd : env.listCheckDir = true)
    (hwr : env.writeOk = true) :
    checkCode cfg mp spec env fs = 0 ∧
    checkFS cfg mp spec env fs (checkfileOf mp spec) = some (env.ctime ++ "\n") := by
  have h := healthy_check cfg mp spec env fs hm hl hw hd hwr
  refine ⟨?_, ?_⟩
  · simp [checkCode, h]
  · simp [checkFS, h]

/-- Healthy-environment oracle: mounted, listable, all commands succeed,
checkdir present, write succeeds. -/
def envHealthy : Env :=
  { ismount := true, mountCmd := .exited 0, listMp := true,
    umountCmd := .exited 0, umountLazyCmd := .exited 0, remountCmd := .exited 0,
    listCheckDir := true, mkdirOk := true, writeOk := true,
    ctime := "Mon Oct 12 00:00:00 2026" }

/-- A second healthy oracle with a later clock reading. -/
def envHealthy2 : Env :=
  { envHealthy with ctime := "Mon Oct 12 00:01:00 2026" }

/-- An initially empty filesystem. -/
def fs0 : FSMap := fun _ => none

/-- Witness for C1 at the default mountpoint with an empty filesystem. -/
theorem check_ok_writes_timestamp_witness :
    envHealthy.ismount = true ∧ envHealthy.listMp = true ∧
    defaultSpec.write_check = true ∧ envHealthy.listCheckDir = true ∧
    envHealthy.writeOk = true ∧
    (checkCode defaultCfg "/mymount" defaultSpec envHealthy fs0 = 0 ∧
     checkFS defaultCfg "/mymount" defaultSpec envHealthy fs0
       (checkfileOf "/mymount" defaultSpec) = some (envHealthy.ctime ++ "\n")) :=
  ⟨rfl, rfl, rfl, rfl, rfl,
   check_ok_writes_timestamp defaultCfg "/mymount" defaultSpec envHealthy fs0
     rfl rfl rfl rfl rfl⟩

/-- C9: two consecutive `Check` calls under unchanged healthy conditions both
return OK (0), and afterwards the checkfile holds the second call's
timestamp: the second write overwrote the first. -/
theorem check_idempotent (cfg : Cfg) (mp : String) (spec : MountSpec)
    (env1 env2 : Env) (fs : FSMap)
    (hm1 : env1.ismount = true) (hl1 : env1.listMp = true)
    (hd1 : env1.listCheckDir = true) (hwr1 : env1.writeOk = true)
    (hm2 : env2.ismount = true) (hl2 : env2.listMp = true)
    (hd2 : env2.listCheckDir = true) (hwr2 : env2.writeOk = true)
    (hw : spec.write_check = true) :
    checkCode cfg mp spec env1 fs = 0 ∧
    checkCode cfg mp spec env2 (checkFS cfg mp spec env1 fs) = 0 ∧
    checkFS cfg mp spec env2 (checkFS cfg mp spec env1 fs) (checkfileOf mp spec)
      = some (env2.ctime ++ "\n") := by
  have h1 := healthy_check cfg mp spec env1 fs hm1 hl1 hw hd1 hwr1
  have h2 := healthy_check cfg mp spec env2 (checkFS cfg mp spec env1 fs)
    hm2 hl2 hw hd2 hwr2
  refine ⟨?_, ?_, ?_⟩
  · simp [checkCode, h1]
  · simp [checkCode, h2]
  · simp only [checkFS] at h2 ⊢
    rw [h2]
    simp

/-- Witness for C9: two healthy checks in a row on the default mountpoint. -/
theorem check_idempotent_witness :
    envHealthy.ismount = true ∧ envHealthy.listMp = true ∧
    envHealthy.listCheckDir = true ∧ envHealthy.writeOk = true ∧
    envHealthy2.ismount = true ∧ envHealthy2.listMp = true ∧
    envHealthy2.listCheckDir = true ∧ envHealthy2.writeOk = true ∧
    defaultSpec.write_check = true ∧
    (checkCode defaultCfg "/mymount" defaultSpec envHealthy fs0 = 0 ∧
     checkCode defaultCfg "/mymount" defaultSpec envHealthy2
       (checkFS defaultCfg "/mymount" defaultSpec envHealthy fs0) = 0 ∧
     checkFS defaultCfg "/mymount" defaultSpec envHealthy2
       (checkFS defaultCfg "/mymount" defaultSpec envHealthy fs0)
       (checkfileOf "/mymount" defaultSpec) = some (envHealthy2.ctime ++ "\n")) :=
  ⟨rfl, rfl, rfl, rfl, rfl, rfl, rfl, rfl, rfl,
   check_idempotent defaultCfg "/mymount" defaultSpec envHealthy envHealthy2 fs0
     rfl rfl rfl rfl rfl rfl rfl rfl rfl⟩

/-- C10: for a mounted mountpoint whose listing succeeds, `Check` invokes no
external mount or unmount command, whatever the remount setting: its trace
contains no process invocations. -/
theorem healthy_no_commands (cfg : Cfg) (mp : String) (spec : MountSpec)
    (env : Env) (fs : FSMap) (hm : env.ismount = true) (hl : env.listMp = true) :
    (checkTrace cfg mp spec env fs).filter Event.isCmd = [] := by
  rcases hwc : spec.write_check with _ | _ <;>
    rcases hd : env.listCheckDir with _ | _ <;>
    rcases hmk : env.mkdirOk with _ | _ <;>
    rcases hwr : env.writeOk with _ | _ <;>
    simp [checkTrace, MountMon, restCheck, mountCheck, staleCheck, writeCheck,
      Error, hm, hl, hwc, hd, hmk, hwr, Event.isCmd, List.filter_append,
      List.filter]

/-- Witness for C10 on the healthy default environment. -/
theorem healthy_no_commands_witness :
    envHealthy.ismount = true ∧ envHealthy.listMp = true ∧
    (checkTrace defaultCfg "/mymount" defaultSpec envHealthy fs0).filter
      Event.isCmd = [] :=
  ⟨rfl, rfl,
   healthy_no_commands defaultCfg "/mymount" defaultSpec envHealthy fs0 rfl rfl⟩

/-- C2: for an unmounted mountpoint — with remount disabled, `Check` returns
NotMounted (1) with no filesystem writes and no process invocations; with
remount enabled, the mount-verify step invokes the external mount command
exactly once, on failure the whole check returns 1 with that single command
in its trace, and on success the step falls through (after a 2-second settle
sleep as its last action) so that the check continues with the staleness
check and the rest of the pipeline. -/
theorem notMounted_check (cfg : Cfg) (mp : String) (spec : MountSpec)
    (env : Env) (fs : FSMap) (h : env.ismount = false) :
    (cfg.remount = false →
      checkCode cfg mp spec env fs = 1 ∧
      (checkTrace cfg mp spec env fs).filter Event.isCmd = [] ∧
      (checkTrace cfg mp spec env fs).filter Event.isFsWrite = []) ∧
    (cfg.remount = true →
      ((mountCheck cfg mp env).2.filter Event.isCmd
          = [Event.runCmd ["/usr/bin/mount", mp]]) ∧
      (RunCommand env.mountCmd = false →
        checkCode cfg mp spec env fs = 1 ∧
        (checkTrace cfg mp spec env fs).filter Event.isCmd
          = [Event.runCmd ["/usr/bin/mount", mp]]) ∧
      (RunCommand env.mountCmd = true →
        (mountCheck cfg mp env).1 = none ∧
        (mountCheck cfg mp env).2.getLast? = some (Event.sleep 2) ∧
        MountMon cfg mp spec env fs =
          ((restCheck cfg mp spec env fs).1, (restCheck cfg mp spec env fs).2.1,
           (mountCheck cfg mp env).2 ++ (restCheck cfg mp spec env fs).2.2))) := by
  rcases cfg with ⟨rem, zab⟩
  refine ⟨?_, ?_⟩
  · rintro rfl
    cases zab <;>
      simp [checkCode, checkTrace, MountMon, mountCheck, Error, h,
        Event.isCmd, Event.isFsWrite, List.filter]
  · rintro rfl
    rcases hmc : RunCommand env.mountCmd with _ | _ <;>
      cases zab <;>
      simp [checkCode, checkTrace, MountMon, mountCheck, Mount, Error, h, hmc,
        Event.isCmd, Event.isFsWrite, List.filter_append, List.filter]

/-- Unmounted environment whose mount command fails to spawn; everything
else would succeed. -/
def envUnmounted : Env :=
  { envHealthy with ismount := false, mountCmd := .spawnFail }

/-- Configuration with remount and alerting both enabled. -/
def cfgRemountZ : Cfg := { remount := true, zabbix := true }

/-- Witness for C2 with remount and alerting enabled and a failing mount
command. -/
theorem notMounted_check_witness :
    envUnmounted.ismount = false ∧
    ((cfgRemountZ.remount = false →
      checkCode cfgRemountZ "/mymount" defaultSpec envUnmounted fs0 = 1 ∧
      (checkTrace cfgRemountZ "/mymount" defaultSpec envUnmounted fs0).filter
        Event.isCmd = [] ∧
      (checkTrace cfgRemountZ "/mymount" defaultSpec envUnmounted fs0).filter
        Event.isFsWrite = []) ∧
    (cfgRemountZ.remount = true →
      ((mountCheck cfgRemountZ "/mymount" envUnmounted).2.filter Event.isCmd
          = [Event.runCmd ["/usr/bin/mount", "/mymount"]]) ∧
      (RunCommand envUnmounted.mountCmd = false →
        checkCode cfgRemountZ "/mymount" defaultSpec envUnmounted fs0 = 1 ∧
        (checkTrace cfgRemountZ "/mymount" defaultSpec envUnmounted fs0).filter
          Event.isCmd = [Event.runCmd ["/usr/bin/mount", "/mymount"]]) ∧
      (RunCommand envUnmounted.mountCmd = true →
        (mountCheck cfgRemountZ "/mymount" envUnmounted).1 = none ∧
        (mountCheck cfgRemountZ "/mymount" envUnmounted).2.getLast?
          = some (Event.sleep 2) ∧
        MountMon cfgRemountZ "/mymount" defaultSpec envUnmounted fs0 =
          ((restCheck cfgRemountZ "/mymount" defaultSpec envUnmounted fs0).1,
           (restCheck cfgRemountZ "/mymount" defaultSpec envUnmounted fs0).2.1,
           (mountCheck cfgRemountZ "/mymount" envUnmounted).2 ++
             (restCheck cfgRemountZ "/mymount" defaultSpec envUnmounted fs0).2.2)))) :=
  ⟨rfl, notMounted_check cfgRemountZ "/mymount" defaultSpec envUnmounted fs0 rfl⟩

/-- C3: for a mounted mountpoint whose listing fails — with remount disabled,
`Check` returns Stale (2), leaves the filesystem untouched and never reaches
the write-liveness step; with remount enabled, a failed unmount or a failed
remount each yield 2, and when both commands succeed the check's outcome is
exactly that of the write-liveness step (code and filesystem), with no
second listing of the mountpoint in between. -/
theorem stale_check_behavior (cfg : Cfg) (mp : String) (spec : MountSpec)
    (env : Env) (fs : FSMap) (hm : env.ismount = true) (hl : env.listMp = false) :
    (cfg.remount = false →
      checkCode cfg mp spec env fs = 2 ∧
      checkFS cfg mp spec env fs = fs ∧
      (checkTrace cfg mp spec env fs).filter Event.isFsWrite = []) ∧
    (cfg.remount = true →
      ((Umount mp env.umountCmd env.umountLazyCmd).1 = false →
        checkCode cfg mp spec env fs = 2) ∧
      ((Umount mp env.umountCmd env.umountLazyCmd).1 = true →
        (RunCommand env.remountCmd = false → checkCode cfg mp spec env fs = 2) ∧
        (RunCommand env.remountCmd = true →
          (staleCheck cfg mp env).1 = none ∧
          checkCode cfg mp spec env fs
            = ((writeCheck cfg mp spec env fs).1).getD 0 ∧
          checkFS cfg mp spec env fs = (writeCheck cfg mp spec env fs).2.1))) := by
  rcases cfg with ⟨rem, zab⟩
  refine ⟨?_, ?_⟩
  · rintro rfl
    cases zab <;>
      simp [checkCode, checkFS, checkTrace, MountMon, restCheck, mountCheck,
        staleCheck, Error, hm, hl, Event.isFsWrite, List.filter]
  · rintro rfl
    refine ⟨?_, ?_⟩
    · intro hu
      cases zab <;>
        simp [checkCode, MountMon, restCheck, mountCheck, staleCheck, hm, hl, hu]
    · intro hu
      refine ⟨?_, ?_⟩
      · intro hrc
        cases zab <;>
          simp [checkCode, MountMon, restCheck, mountCheck, staleCheck, Mount,
            hm, hl, hu, hrc]
      · intro hrc
        have hsc : (staleCheck ⟨true, zab⟩ mp env).1 = none := by
          simp [staleCheck, Mount, hl, hu, hrc]
        refine ⟨hsc, ?_, ?_⟩ <;>
          rcases hwc : writeCheck ⟨true, zab⟩ mp spec env fs with ⟨c | c, fs2, t3⟩ <;>
          rcases hsc2 : staleCheck ⟨true, zab⟩ mp env with ⟨oc, t2⟩ <;>
          rw [hsc2] at hsc <;>
          subst hsc <;>
          simp [checkCode, checkFS, MountMon, restCheck, mountCheck, hm, hsc2, hwc]

/-- Mounted environment whose mountpoint listing fails; the recovery
commands would all succeed. -/
def envStale : Env := { envHealthy with listMp := false }

/-- Witness for C3: a stale mountpoint with remount and alerting enabled and
all recovery commands succeeding. -/
theorem stale_check_behavior_witness :
    envStale.ismount = true ∧ envStale.listMp = false ∧
    ((cfgRemountZ.remount = false →
      checkCode cfgRemountZ "/mymount" defaultSpec envStale fs0 = 2 ∧
      checkFS cfgRemountZ "/mymount" defaultSpec envStale fs0 = fs0 ∧
      (checkTrace cfgRemountZ "/mymount" defaultSpec envStale fs0).filter
        Event.isFsWrite = []) ∧
    (cfgRemountZ.remount = true →
      ((Umount "/mymount" envStale.umountCmd envStale.umountLazyCmd).1 = false →
        checkCode cfgRemountZ "/mymount" defaultSpec envStale fs0 = 2) ∧
      ((Umount "/mymount" envStale.umountCmd envStale.umountLazyCmd).1 = true →
        (RunCommand envStale.remountCmd = false →
          checkCode cfgRemountZ "/mymount" defaultSpec envStale fs0 = 2) ∧
        (RunCommand envStale.remountCmd = true →
          (staleCheck cfgRemountZ "/mymount" envStale).1 = none ∧
          checkCode cfgRemountZ "/mymount" defaultSpec envStale fs0
            = ((writeCheck cfgRemountZ "/mymount" defaultSpec envStale fs0).1).getD 0 ∧
          checkFS cfgRemountZ "/mymount" defaultSpec envStale fs0
            = (writeCheck cfgRemountZ "/mymount" defaultSpec envStale fs0).2.1)))) :=
  ⟨rfl, rfl,
   stale_check_behavior cfgRemountZ "/mymount" defaultSpec envStale fs0 rfl rfl⟩

/-- C4: in the write-liveness step (write-check on, mounted, listable) — when
listing the checkdir fails, `Check` returns CheckDirUnavailable (3) exactly
when creating it also fails, and a successful creation happens with
owner-only permissions (mode 0700 = 448); once the checkdir is available
(listed or just created), `Check` returns WriteFailed (4) exactly when the
checkfile write fails. -/
theorem writeLiveness_codes (cfg : Cfg) (mp : String) (spec : MountSpec)
    (env : Env) (fs : FSMap) (hm : env.ismount = true) (hl : env.listMp = true)
    (hw : spec.write_check = true) :
    (env.listCheckDir = false →
      ((checkCode cfg mp spec env fs = 3 ↔ env.mkdirOk = false) ∧
       (env.mkdirOk = true →
         Event.mkdir (checkdirOf mp spec) 448 ∈ checkTrace cfg mp spec env fs))) ∧
    ((env.listCheckDir = true ∨ env.mkdirOk = true) →
      (checkCode cfg mp spec env fs = 4 ↔ env.writeOk = false)) := by
  refine ⟨?_, ?_⟩
  · intro hd
    rcases hmk : env.mkdirOk with _ | _ <;>
      rcases hwr : env.writeOk with _ | _ <;>
      simp [checkCode, checkTrace, MountMon, restCheck, mountCheck, staleCheck,
        writeCheck, hm, hl, hw, hd, hmk, hwr]
  · intro hd
    rcases hwr : env.writeOk with _ | _ <;>
      rcases hdl : env.listCheckDir with _ | _ <;>
      simp [hdl] at hd <;>
      simp [checkCode, MountMon, restCheck, mountCheck, staleCheck,
        writeCheck, hm, hl, hw, hdl, hd, hwr]

/-- Environment where the checkdir listing fails but creating it succeeds,
and the checkfile write then fails. -/
def envDirMissing : Env :=
  { envHealthy with listCheckDir := false, writeOk := false }

/-- Witness for C4: checkdir missing but creatable, write failing. -/
theorem writeLiveness_codes_witness :
    envDirMissing.ismount = true ∧ envDirMissing.listMp = true ∧
    defaultSpec.write_check = true ∧
    ((envDirMissing.listCheckDir = false →
      ((checkCode defaultCfg "/mymount" defaultSpec envDirMissing fs0 = 3 ↔
          envDirMissing.mkdirOk = false) ∧
       (envDirMissing.mkdirOk = true →
         Event.mkdir (checkdirOf "/mymount" defaultSpec) 448 ∈
           checkTrace defaultCfg "/mymount" defaultSpec envDirMissing fs0))) ∧
    ((envDirMissing.listCheckDir = true ∨ envDirMissing.mkdirOk = true) →
      (checkCode defaultCfg "/mymount" defaultSpec envDirMissing fs0 = 4 ↔
        envDirMissing.writeOk = false))) :=
  ⟨rfl, rfl, rfl,
   writeLiveness_codes defaultCfg "/mymount" defaultSpec envDirMissing fs0
     rfl rfl rfl⟩

/-- Helper: the mountpoint check either falls through or returns code 1. -/
theorem mountCheck_fst (cfg : Cfg) (mp : String) (env : Env) :
    (mountCheck cfg mp env).1 = none ∨ (mountCheck cfg mp env).1 = some 1 := by
  rcases him : env.ismount with _ | _ <;>
    rcases hrem : cfg.remount with _ | _ <;>
    rcases hmc : RunCommand env.mountCmd with _ | _ <;>
    simp [mountCheck, Mount, him, hrem, hmc]

/-- Helper: the staleness check either falls through or returns code 2. -/
theorem staleCheck_fst (cfg : Cfg) (mp : String) (env : Env) :
    (staleCheck cfg mp env).1 = none ∨ (staleCheck cfg mp env).1 = some 2 := by
  rcases hl : env.listMp with _ | _ <;>
    rcases hrem : cfg.remount with _ | _ <;>
    rcases hu : RunCommand env.umountCmd with _ | _ <;>
    rcases hul : RunCommand env.umountLazyCmd with _ | _ <;>
    rcases hrc : RunCommand env.remountCmd with _ | _ <;>
    simp [staleCheck, Umount, Mount, hl, hrem, hu, hul, hrc]

/-- Helper: the write-liveness check either falls through or returns
code 3 or 4. -/
theorem writeCheck_fst (cfg : Cfg) (mp : String) (spec : MountSpec)
    (env : Env) (fs : FSMap) :
    (writeCheck cfg mp spec env fs).1 = none ∨
    (writeCheck cfg mp spec env fs).1 = some 3 ∨
    (writeCheck cfg mp spec env fs).1 = some 4 := by
  rcases hw : spec.write_check with _ | _ <;>
    rcases hd : env.listCheckDir with _ | _ <;>
    rcases hmk : env.mkdirOk with _ | _ <;>
    rcases hwr : env.writeOk with _ | _ <;>
    simp [writeCheck, hw, hd, hmk, hwr]

/-- C5: every `Check` invocation returns one of the codes 0–4 — each failure
an oracle can inject is caught and converted to a code, never escaping — and
the command runner turns any execution error into `false`: a spawn failure
and every non-zero exit status yield `false`, never an exception. -/
theorem check_codes_total (cfg : Cfg) (mp : String) (spec : MountSpec)
    (env : Env) (fs : FSMap) :
    checkCode cfg mp spec env fs ∈ ([0, 1, 2, 3, 4] : List Nat) ∧
    RunCommand CmdResult.spawnFail = false ∧
    (∀ c : Int, c ≠ 0 → RunCommand (CmdResult.exited c) = false) := by
  refine ⟨?_, rfl, ?_⟩
  · have h1 := mountCheck_fst cfg mp env
    have h2 := staleCheck_fst cfg mp env
    have h3 := writeCheck_fst cfg mp spec env fs
    rcases hmc : mountCheck cfg mp env with ⟨oc1, t1⟩
    rcases hsc : staleCheck cfg mp env with ⟨oc2, t2⟩
    rcases hwc : writeCheck cfg mp spec env fs with ⟨oc3, fs3, t3⟩
    rw [hmc] at h1
    rw [hsc] at h2
    rw [hwc] at h3
    simp only at h1 h2 h3
    rcases h1 with rfl | rfl <;> rcases h2 with rfl | rfl <;>
      rcases h3 with rfl | rfl | rfl <;>
      simp [checkCode, MountMon, restCheck, hmc, hsc, hwc]
  · intro c hc
    simp [RunCommand, hc]

/-- Witness for C5 at a concrete environment and a concrete non-zero exit
status. -/
theorem check_codes_total_witness :
    checkCode cfgRemountZ "/mymount" defaultSpec envUnmounted fs0
        ∈ ([0, 1, 2, 3, 4] : List Nat) ∧
    RunCommand CmdResult.spawnFail = false ∧
    ((1 : Int) ≠ 0 ∧ RunCommand (CmdResult.exited 1) = false) :=
  ⟨(check_codes_total cfgRemountZ "/mymount" defaultSpec envUnmounted fs0).1,
   (check_codes_total cfgRemountZ "/mymount" defaultSpec envUnmounted fs0).2.1,
   by decide,
   (check_codes_total cfgRemountZ "/mymount" defaultSpec envUnmounted fs0).2.2
     1 (by decide)⟩

/-- C6: the claim (and the module docstring, "5 = no mountmon config file at
startup") says a config-load failure terminates the process with exit code 5
before the scheduler runs.  The code disagrees: `GetConfig` runs before
`SetLogging`, so the `Error(..., 5)` call in its `except` clause dereferences
the unset `self.logger` and the process dies on an uncaught
`AttributeError` — the interpreter's exit, not an exit with code 5.  The
scheduler indeed never runs. -/
theorem configLoadFailure_outcome :
    startupOutcome false = StartupOutcome.uncaughtException "AttributeError" ∧
    startupOutcome false ≠ StartupOutcome.exitWithCode 5 ∧
    startupOutcome false ≠ StartupOutcome.mainLoopRuns := by
  refine ⟨rfl, ?_, ?_⟩ <;> simp [startupOutcome, errorBeforeLogging]

/-- C7 counterexample: with alerting and remount both enabled, an unmounted
mountpoint whose mount command fails gives `Check` result 1 (non-zero)
while the alert sink is called twice — once before the recovery attempt and
once when it fails — so it is not called exactly once for this check. -/
theorem alert_not_once_cex :
    checkCode cfgRemountZ "/mymount" defaultSpec envUnmounted fs0 = 1 ∧
    alertValues (checkTrace cfgRemountZ "/mymount" defaultSpec envUnmounted fs0)
      = [1, 1] ∧
    (alertValues
      (checkTrace cfgRemountZ "/mymount" defaultSpec envUnmounted fs0)).length
      ≠ 1 := by
  refine ⟨rfl, rfl, ?_⟩
  simp [checkTrace, MountMon, mountCheck, Mount, Error, envUnmounted,
    envHealthy, cfgRemountZ, RunCommand, alertValues]

/-- C7 amended: with alerting enabled and remount disabled, the alert sink is
called exactly once per `Check` invocation that produces a non-zero result,
with the result's numeric code as the value, and it is not called when the
result is 0. -/
theorem alerts_remount_disabled (cfg : Cfg) (mp : String) (spec : MountSpec)
    (env : Env) (fs : FSMap) (hz : cfg.zabbix = true)
    (hr : cfg.remount = false) :
    alertValues (checkTrace cfg mp spec env fs) =
      (if checkCode cfg mp spec env fs = 0 then []
       else [checkCode cfg mp spec env fs]) := by
  rcases him : env.ismount with _ | _ <;>
    rcases hl : env.listMp with _ | _ <;>
    rcases hw : spec.write_check with _ | _ <;>
    rcases hd : env.listCheckDir with _ | _ <;>
    rcases hmk : env.mkdirOk with _ | _ <;>
    rcases hwr : env.writeOk with _ | _ <;>
    simp [checkCode, checkTrace, MountMon, restCheck, mountCheck, staleCheck,
      writeCheck, Error, alertValues, him, hl, hw, hd, hmk, hwr, hz, hr]

/-- Configuration with alerting enabled and remount disabled. -/
def cfgZOnly : Cfg := { remount := false, zabbix := true }

/-- Environment for a mountpoint that is mounted but stale, with remount
disabled. -/
def envStaleNoRemount : Env := { envHealthy with listMp := false }

/-- Witness for the amended C7: a stale mountpoint with remount disabled
alerts exactly once with value 2. -/
theorem alerts_remount_disabled_witness :
    cfgZOnly.zabbix = true ∧ cfgZOnly.remount = false ∧
    alertValues (checkTrace cfgZOnly "/mymount" defaultSpec envStaleNoRemount fs0)
      = (if checkCode cfgZOnly "/mymount" defaultSpec envStaleNoRemount fs0 = 0
         then []
         else [checkCode cfgZOnly "/mymount" defaultSpec envStaleNoRemount fs0]) :=
  ⟨rfl, rfl,
   alerts_remount_disabled cfgZOnly "/mymount" defaultSpec envStaleNoRemount fs0
     rfl rfl⟩

/-- Helper: `fmod` of an integer multiple of the modulus is zero. -/
theorem fmod_mul_intCast (y : ℚ) (hy : y ≠ 0) (k : ℤ) : fmod (y * k) y = 0 := by
  unfold fmod
  have h : y * (k : ℚ) / y = (k : ℚ) := by
    field_simp
  rw [h, Int.floor_intCast]
  ring

/-- C8: each sleep performed in `MainLoop` after a check lasts
`interval - ((now - starttime) % interval)` with `starttime` fixed once when
the loop started, and (under exact sleeps) the wake-up instant
`now + sleep` lies on the cadence grid anchored at `starttime`: its elapsed
time is an exact multiple of the interval, regardless of how long the
preceding checks took. -/
theorem mainLoopSleep_aligns (interval starttime now : ℚ) (h : 0 < interval) :
    mainLoopSleep interval starttime now
      = interval - fmod (now - starttime) interval ∧
    fmod (now + mainLoopSleep interval starttime now - starttime) interval
      = 0 := by
  refine ⟨rfl, ?_⟩
  have hy : interval ≠ 0 := ne_of_gt h
  have harg : now + mainLoopSleep interval starttime now - starttime
      = interval * ((⌊(now - starttime) / interval⌋ + 1 : ℤ) : ℚ) := by
    unfold mainLoopSleep fmod
    push_cast
    ring
  rw [harg, fmod_mul_intCast interval hy]

/-- Witness for C8: interval 60 anchored at 0, current time 130; the sleep
is 50 seconds and the wake-up at 180 is on the 60-second grid. -/
theorem mainLoopSleep_aligns_witness :
    (0 : ℚ) < 60 ∧
    (mainLoopSleep 60 0 130 = 60 - fmod (130 - 0) 60 ∧
     fmod (130 + mainLoopSleep 60 0 130 - 0) 60 = 0) :=
  ⟨by norm_num, mainLoopSleep_aligns 60 0 130 (by norm_num)⟩

end Mountmon
